import Mathlib

/-!
Verification of the build/publish pipeline of a browser-extension template.

The two scripts under verification are the build script (manifest validation,
version synchronization, conditional packaging) and the publish script
(OAuth token management, store upload).  JavaScript values that the scripts
inspect dynamically are modelled by `JSVal`; the scripts' pure decision logic
is translated function-by-function, and the effectful orchestration of the
build `main` is modelled as a trace of `Effect`s.
-/

/-- Model of a JSON/JavaScript value as the scripts see it after `JSON.parse`
(no `undefined` and no `NaN` can appear inside a parsed document; an absent
object property is modelled by `Option` at the use sites). -/
inductive JSVal where
  | str (s : String)
  | num (n : Int)
  | bool (b : Bool)
  | null
  | arr (elems : List JSVal)
  | obj (fields : List (String × JSVal))

/-- JavaScript `typeof`.  Note `typeof null === "object"`, which is the root
cause of the icons-validation crash analysed below. -/
def jsTypeof : JSVal → String
  | .str _ => "string"
  | .num _ => "number"
  | .bool _ => "boolean"
  | .null => "object"
  | .arr _ => "object"
  | .obj _ => "object"

/-- JavaScript `Array.isArray`. -/
def jsIsArray : JSVal → Bool
  | .arr _ => true
  | _ => false

/-- Property read `v[k]`: on an object it yields the field (or `undefined`,
modelled as `none`); on `null` it throws a `TypeError`; on other primitives it
yields `undefined` for the keys the scripts use. -/
def getProp : JSVal → String → Except String (Option JSVal)
  | .null, _ => .error "TypeError: Cannot read properties of null"
  | .obj fs, k => .ok (fs.lookup k)
  | _, _ => .ok none

/-- JavaScript truthiness test on a possibly-`undefined` value
(`none` models `undefined`). -/
def jsFalsy : Option JSVal → Bool
  | none => true
  | some .null => true
  | some (.bool b) => !b
  | some (.num n) => n == 0
  | some (.str s) => s == ""
  | some (.arr _) => false
  | some (.obj _) => false

/-- `Object.entries` as used on the already-type-checked `icons` value. -/
def jsEntries : JSVal → List (String × JSVal)
  | .obj fs => fs
  | _ => []

/-- JavaScript `String(v)` for the scalar values the scripts convert.  The
recursive array `join` is omitted (written as `""`): every theorem below that
goes through this conversion restricts the converted field to a string, where
the model is exact. -/
def jsToString : JSVal → String
  | .str s => s
  | .num n => toString n
  | .bool true => "true"
  | .bool false => "false"
  | .null => "null"
  | .arr _ => ""
  | .obj _ => "[object Object]"

/-! ## Version strings (`compareVersions`, build script lines 172-182) -/

/-- Accumulating worker of `splitDot`: `acc` holds the reversed characters of
the segment being collected. -/
def splitDotAux : List Char → List Char → List String
  | acc, [] => [String.mk acc.reverse]
  | acc, c :: cs =>
    if c = '.' then String.mk acc.reverse :: splitDotAux [] cs
    else splitDotAux (c :: acc) cs

/-- JavaScript `v.split(".")` (the empty string splits to `[""]`, consecutive
dots produce empty segments). -/
def splitDot (v : String) : List String :=
  splitDotAux [] v.data

/-- `parseInt(p, 10)` / `Number(p)` on an all-digit segment: the base-10
value of the digits.  Only applied behind the all-digits guard, where it is
exact (JS float precision is irrelevant at the 0..65535 magnitudes the
validator admits). -/
def parsePart (p : String) : Nat :=
  p.data.foldl (fun n c => n * 10 + (c.toNat - 48)) 0

/-- Does the segment start with the character `0` (`part.startsWith("0")`)? -/
def leadingZero (p : String) : Bool :=
  match p.data with
  | '0' :: _ => true
  | _ => false

/-- Case-preserving suffix test (`a.endsWith(b)`), over the char lists. -/
def strEndsWith (a b : String) : Bool :=
  a.data.drop (a.data.length - b.data.length) == b.data

/-- Prefix test (`a.startsWith(b)`), over the char lists. -/
def strStartsWith (a b : String) : Bool :=
  a.data.take b.data.length == b.data

/-- `s.toLowerCase()` (ASCII, which covers the extension names and icon paths
the scripts handle). -/
def strToLower (s : String) : String :=
  String.mk (s.data.map Char.toLower)

/-- Numeric segments of a version string: `v.split(".").map(Number)`.  The
`Number` conversion is modelled by `parsePart` and is exact on all-digit
segments; the theorems below restrict their version inputs to valid
`VersionString`s (all-digit segments). -/
def versionParts (v : String) : List Nat :=
  (splitDot v).map parsePart

/-- Tail of the comparison loop once the first list is exhausted: the
remaining segments of the second operand are compared against 0. -/
def cmpNilLeft : List Nat → Int
  | [] => 0
  | b :: bs => if b > 0 then -1 else cmpNilLeft bs

/-- The comparison loop of `compareVersions`: walk the two segment lists in
lockstep, a missing trailing segment read as 0 (`parts[i] || 0`); the first
strict difference decides, otherwise the versions are equal. -/
def cmpParts : List Nat → List Nat → Int
  | [], bs => cmpNilLeft bs
  | a :: as, [] => if a > 0 then 1 else cmpParts as []
  | a :: as, b :: bs => if a > b then 1 else if a < b then -1 else cmpParts as bs

/-- `compareVersions(v1, v2)`: 1 if v1 > v2, -1 if v1 < v2, 0 if equal. -/
def compareVersions (v1 v2 : String) : Int :=
  cmpParts (versionParts v1) (versionParts v2)

/-- A segment passes the validator's per-segment rules: all digits
(`/^\d+$/`), value at most 65535, and no leading zero unless the value is 0. -/
def validVersionPart (p : String) : Bool :=
  p.data.length > 0 && p.data.all Char.isDigit && parsePart p ≤ 65535 &&
    !(parsePart p != 0 && leadingZero p)

/-- A valid `VersionString` per the validator: 1-4 dot-separated segments,
each passing `validVersionPart`, not all zero. -/
def isValidVersion (v : String) : Bool :=
  let parts := splitDot v
  1 ≤ parts.length && parts.length ≤ 4 && parts.all validVersionPart &&
    !(parts.all (fun p => parsePart p == 0))

/-! ## Manifest validation (`validateManifest`, build script lines 56-153) -/

/-- The parsed manifest: the five fields the validator inspects.  `none`
models an absent key (`!("k" in manifestJson)`); values parsed from JSON are
never `undefined`, so `Option` is faithful. -/
structure Manifest where
  manifest_version : Option JSVal := none
  name : Option JSVal := none
  version : Option JSVal := none
  description : Option JSVal := none
  icons : Option JSVal := none

/-- The parsed `package.json` fields the scripts use.  `version` is kept as a
string (the template's own descriptor stores a string there). -/
structure Pkg where
  name : Option JSVal := none
  version : String := ""

/-- Result of a completed validation pass: the aggregated errors and warnings,
the possibly auto-filled manifest, and whether an auto-fill made the manifest
dirty (`needsSave`), in which case the validator persists it before
returning. -/
structure Validation where
  errors : List String
  warnings : List String
  manifest : Manifest
  needsSave : Bool

/-- The validator's per-segment loop (build script lines 92-108).  Returns the
errors pushed by the loop (the `break` makes it stop at the first failing
rule) together with the final value of the `allZero` flag, which is updated
before the range and leading-zero breaks. -/
def checkParts : List String → Bool → (List String × Bool)
  | [], allZero => ([], allZero)
  | p :: ps, allZero =>
    if !(p.data.length > 0 && p.data.all Char.isDigit) then
      (["Version parts must be integers"], allZero)
    else
      let num := parsePart p
      let allZero := if num != 0 then false else allZero
      if num > 65535 then
        (["Version integers must be between 0 and 65535"], allZero)
      else if num != 0 && leadingZero p then
        (["Non-zero version integers cannot start with 0"], allZero)
      else checkParts ps allZero

/-- Errors pushed for a present `version` value (build script lines 88-112):
segment-count check, then the per-segment loop, then the post-loop `allZero`
check, which runs even when the loop stopped early. -/
def versionFieldErrors (v : String) : List String :=
  let parts := splitDot v
  if parts.length < 1 || parts.length > 4 then
    ["Version must have 1 to 4 dot-separated integers"]
  else
    let r := checkParts parts true
    r.1 ++ (if r.2 then ["Version cannot be all zeros (e.g., 0 or 0.0.0.0)"] else [])

/-- The supported icon extensions (lowercased comparison). -/
def supportedFormats : List String :=
  [".png", ".bmp", ".gif", ".ico", ".jpg", ".jpeg"]

/-- Warnings for one `Object.entries(icons)` entry (build script lines
135-143). -/
def iconEntryWarnings : String × JSVal → List String
  | (size, .str p) =>
    if supportedFormats.any (fun f => strEndsWith (strToLower p) f) then []
    else ["Icon path for size " ++ size ++ " must end in supported format"]
  | (size, _) => ["Icon path for size " ++ size ++ " must be a string"]

/-- `validateManifest(manifestJson, packageJson, ...)`.  Aggregates errors
(platform fields) and warnings (store fields) in source order; auto-fills
`manifest_version` and `name`; a thrown `TypeError` (see the icons branch:
`typeof null === "object"` passes the object check and the subsequent
`icons["128"]` read throws) is the `Except.error` case.  The `needsSave`
persistence of the auto-filled manifest (source line 147) is replayed by
`buildMain` below as a file-write effect. -/
def validateManifest (man : Manifest) (pkg : Pkg) : Except String Validation := do
  let mvStep :=
    match man.manifest_version with
    | none => (([] : List String), { man with manifest_version := some (.num 3) }, true)
    | some (.num 3) => ([], man, false)
    | some _ => (["manifest_version must be the integer 3"], man, false)
  let mvErrs := mvStep.1
  let man1 := mvStep.2.1
  let save1 := mvStep.2.2
  let nameStep :=
    match man1.name with
    | none =>
      match pkg.name with
      | some (.str s) =>
        if s != "" then (([] : List String), { man1 with name := some (.str s) }, true)
        else (["Missing required name field"], man1, false)
      | _ => (["Missing required name field"], man1, false)
    | some (.str s) =>
      (if s.length > 75 then
        ["name exceeds 75 characters (current: " ++ toString s.length ++ ")"]
       else [], man1, false)
    | some _ => (["name must be a string"], man1, false)
  let nameErrs := nameStep.1
  let man2 := nameStep.2.1
  let save2 := nameStep.2.2
  let verErrs :=
    match man2.version with
    | none => ["Missing required version field"]
    | some v => versionFieldErrors (jsToString v)
  let descWarns :=
    match man2.description with
    | none => ["Missing description field required by Chrome Web Store"]
    | some (.str s) =>
      if s.length > 132 then
        ["description exceeds 132 characters (current: " ++ toString s.length ++ ")"]
      else []
    | some _ => ["description must be a string"]
  let iconWarns ←
    match man2.icons with
    | none => pure ["Missing icons field required by Chrome Web Store"]
    | some v =>
      if jsTypeof v != "object" || jsIsArray v then
        pure ["icons must be an object"]
      else do
        let p128 ← getProp v "128"
        let w128 := if jsFalsy p128 then ["Missing required 128x128 icon in icons object"] else []
        pure (w128 ++ ((jsEntries v).map iconEntryWarnings).flatten)
  pure { errors := mvErrs ++ nameErrs ++ verErrs
         warnings := descWarns ++ iconWarns
         manifest := man2
         needsSave := save1 || save2 }

/-- Errors of a validation outcome (empty when the validator threw: the
aggregated lists are discarded by a throw, exactly as in the script). -/
def valErrorsOf : Except String Validation → List String
  | .ok v => v.errors
  | .error _ => []

/-- Warnings of a validation outcome. -/
def valWarningsOf : Except String Validation → List String
  | .ok v => v.warnings
  | .error _ => []

/-! ## Version synchronization (`synchronizeVersions`, build script lines 223-239) -/

/-- Outcome of `synchronizeVersions`: the returned `highest` string, the two
version strings as persisted on disk afterwards, and whether each file was
rewritten. -/
structure SyncResult where
  highest : String
  pkgVersion : String
  manVersion : String
  pkgWritten : Bool
  manWritten : Bool
deriving DecidableEq, Repr

/-- `synchronizeVersions(packageJson, manifestJson, ...)`: pick
`highest = (compare(pkg, man) >= 0) ? pkg : man`, rewrite whichever file's
version compares strictly below `highest`, and return `highest`. -/
def synchronizeVersions (pkgVersion manVersion : String) : SyncResult :=
  let highest := if compareVersions pkgVersion manVersion ≥ 0 then pkgVersion else manVersion
  { highest := highest
    pkgVersion := if compareVersions pkgVersion highest < 0 then highest else pkgVersion
    manVersion := if compareVersions manVersion highest < 0 then highest else manVersion
    pkgWritten := if compareVersions pkgVersion highest < 0 then true else false
    manWritten := if compareVersions manVersion highest < 0 then true else false }

/-! ## Archive naming (build script lines 344-347, publish script lines 263-267) -/

/-- One pass of `/\s+/g → "-"` fused with `toLowerCase()`: a whitespace run
becomes a single hyphen (emitted at the run's first character, tracked by the
`prevWs` flag), other characters are lowercased.  (The JS code lowercases
first and then replaces; the two orders agree because lowercasing never turns
whitespace into non-whitespace or vice versa.) -/
def collapseWhitespace : Bool → List Char → List Char
  | _, [] => []
  | prevWs, c :: cs =>
    if c.isWhitespace then
      (if prevWs then [] else ['-']) ++ collapseWhitespace true cs
    else c.toLower :: collapseWhitespace false cs

/-- `name.toLowerCase().replace(/\s+/g, "-")`: the slug used in archive
names. -/
def slugify (name : String) : String :=
  String.mk (collapseWhitespace false name.data)

/-- `version.replace(/\./g, "-")`: every dot character becomes a dash. -/
def dashedVersion (v : String) : String :=
  String.mk (v.data.map (fun c => if c = '.' then '-' else c))

/-- The archive filename the build script creates:
`` `${packageName}-v${highest with dots dashed}.zip` `` where `highest` is the
string returned by `synchronizeVersions`. -/
def buildZipName (manifestName highest : String) : String :=
  slugify manifestName ++ "-v" ++ dashedVersion highest ++ ".zip"

/-- The archive filename the publish script expects: the same formula applied
to the name and `version` read from the manifest on disk. -/
def publishZipName (manifestName manifestVersion : String) : String :=
  slugify manifestName ++ "-v" ++ dashedVersion manifestVersion ++ ".zip"

/-! ## Build orchestrator (`main`, build script lines 305-372) -/

/-- Observable side effects of one build run, in program order. -/
inductive Effect where
  | saveManifest
  | writePkgVersion (v : String)
  | writeManVersion (v : String)
  | mkOutputDir
  | runVite
  | createZip (name : String)
  | deleteZip (name : String)
  | updateGitignore
  | exitFailure
deriving DecidableEq, Repr

/-- The pre-state a build run starts from: the two parsed descriptors, the
relevant filesystem facts, and whether the bundler invocation will succeed. -/
structure BuildInput where
  manifest : Manifest
  pkg : Pkg
  outDirExists : Bool
  viteSucceeds : Bool
  existingZips : List String
  gitignoreHasPattern : Bool

/-- The manifest's `version` as the string the build `main` hands to
`synchronizeVersions` (always an actual string at the call site: validation
passed, and the theorems below restrict the field to a JSON string). -/
def manifestVersionString (m : Manifest) : String :=
  match m.version with
  | some v => jsToString v
  | none => ""

/-- The manifest's `name` as a string (guaranteed a string whenever
validation reported no errors). -/
def manifestNameString (m : Manifest) : String :=
  match m.name with
  | some (.str s) => s
  | _ => ""

/-- The ZIP filename a build run computes for input `inp`, given the completed
validation `val`: slug of the (possibly auto-filled) manifest name plus the
synchronized highest version. -/
def buildZipNameOf (inp : BuildInput) (val : Validation) : String :=
  buildZipName (manifestNameString val.manifest)
    (synchronizeVersions inp.pkg.version (manifestVersionString val.manifest)).highest

/-- The packaging block (build script lines 342-363): run only with zero
warnings; create the archive only when none exists for the current name, then
delete the other `{slug}-v*.zip` files and ensure the ignore-list pattern. -/
def packagingEffects (warnings : List String) (slug zip : String)
    (existing : List String) (hasPattern : Bool) : List Effect :=
  if warnings.length == 0 then
    if zip ∈ existing then []
    else
      .createZip zip ::
        ((existing.filter (fun f =>
            strStartsWith f (slug ++ "-v") && strEndsWith f ".zip" && f != zip)).map .deleteZip)
        ++ (if hasPattern then [] else [.updateGitignore])
  else []

/-- The build `main` as the trace of effects it performs: validation (whose
`needsSave` write happens inside `validateManifest`, before the error gate),
the error gate (`process.exit(1)`), version synchronization, output-directory
creation, the bundler invocation, and conditional packaging.  A validator
throw or a bundler failure ends the run through the top-level catch. -/
def buildMain (inp : BuildInput) : List Effect :=
  match validateManifest inp.manifest inp.pkg with
  | .error _ => [.exitFailure]
  | .ok val =>
    let saveFx : List Effect := if val.needsSave then [.saveManifest] else []
    if val.errors.length > 0 then saveFx ++ [.exitFailure]
    else
      let r := synchronizeVersions inp.pkg.version (manifestVersionString val.manifest)
      let syncFx : List Effect :=
        (if r.pkgWritten then [.writePkgVersion r.highest] else []) ++
        (if r.manWritten then [.writeManVersion r.highest] else [])
      let dirFx : List Effect := if inp.outDirExists then [] else [.mkOutputDir]
      if inp.viteSucceeds then
        saveFx ++ syncFx ++ dirFx ++ [.runVite] ++
          packagingEffects val.warnings (slugify (manifestNameString val.manifest))
            (buildZipNameOf inp val) inp.existingZips inp.gitignoreHasPattern
      else
        saveFx ++ syncFx ++ dirFx ++ [.runVite, .exitFailure]

/-! ## Token manager (publish script lines 85-105 and 182-203) -/

/-- The token endpoint's parsed reply as the script reads it: `response.ok`,
and the `error`, `error_description` and `access_token` body fields (absent
fields as `none`). -/
structure TokenResponse where
  ok : Bool
  error : Option String := none
  error_description : Option String := none
  access_token : Option String := none

/-- The message of the error `getAccessToken` throws for a non-ok reply that
is not `invalid_grant`-shaped: `data.error_description || "Failed to get
access token"` (the `||` falls through on an absent or empty description). -/
def tokenFailMsg (r : TokenResponse) : String :=
  match r.error_description with
  | some d => if d == "" then "Failed to get access token" else d
  | none => "Failed to get access token"

/-- `getAccessToken()` applied to the reply of its one fetch: the token on
success; `Error("Invalid refresh token")` when `data.error ===
"invalid_grant"`; otherwise an error carrying `tokenFailMsg`. -/
def getAccessToken (r : TokenResponse) : Except String String :=
  if r.ok then .ok (r.access_token.getD "")
  else if r.error == some "invalid_grant" then .error "Invalid refresh token"
  else .error (tokenFailMsg r)

/-- What one `ensureAccessToken()` run did: authorizations performed because
the refresh token was missing, authorizations triggered by a failed fetch,
the number of token fetches issued, and the propagated outcome. -/
structure EnsureResult where
  preAuth : Nat
  reAuth : Nat
  fetchCount : Nat
  outcome : Except String String

/-- `ensureAccessToken()` over the replies `r1` (first fetch) and `r2`
(second fetch, issued only after a re-authorization).  The catch block
re-authorizes exactly when the caught message is the string
`"Invalid refresh token"`, and the second fetch's result is returned with no
further handling. -/
def ensureAccessToken (hasRefreshToken : Bool) (r1 r2 : TokenResponse) : EnsureResult :=
  let pre := if hasRefreshToken then 0 else 1
  match getAccessToken r1 with
  | .ok t => ⟨pre, 0, 1, .ok t⟩
  | .error msg =>
    if msg == "Invalid refresh token" then ⟨pre, 1, 2, getAccessToken r2⟩
    else ⟨pre, 0, 1, .error msg⟩

/-! ## Store upload (`uploadToChromeWebStore`, publish script lines 225-245) -/

mutual

/-- `JSON.stringify` for the modelled values (string escaping omitted: the
concrete bodies used below contain no characters needing escapes). -/
def stringify : JSVal → String
  | .str s => "\"" ++ s ++ "\""
  | .num n => toString n
  | .bool true => "true"
  | .bool false => "false"
  | .null => "null"
  | .arr xs => "[" ++ stringifyElems xs ++ "]"
  | .obj fs => "\x7b" ++ stringifyFields fs ++ "\x7d"

/-- Comma-separated serialization of array elements. -/
def stringifyElems : List JSVal → String
  | [] => ""
  | [x] => stringify x
  | x :: y :: xs => stringify x ++ "," ++ stringifyElems (y :: xs)

/-- Comma-separated serialization of object fields. -/
def stringifyFields : List (String × JSVal) → String
  | [] => ""
  | [(k, v)] => "\"" ++ k ++ "\":" ++ stringify v
  | (k, v) :: f :: fs => "\"" ++ k ++ "\":" ++ stringify v ++ "," ++ stringifyFields (f :: fs)

end

/-- The failure message of a rejected upload:
`` `Upload failed: ${JSON.stringify(result)}` `` (the ANSI color wrapper and
emoji prefix of the script's `red()` are omitted).  It carries the raw
response body. -/
def uploadFailMsg (body : JSVal) : String :=
  "Upload failed: " ++ stringify body

/-- JavaScript strict comparison `v === "SUCCESS"`-style test on a
possibly-`undefined` property value. -/
def jsIsString (v : Option JSVal) (s : String) : Bool :=
  match v with
  | some (.str t) => t == s
  | _ => false

/-- The decision `uploadToChromeWebStore` takes on the reply: success exactly
when `response.ok && result.uploadState === "SUCCESS"`; every other
combination throws with the stringified body.  The `&&` short-circuit means
`uploadState` is only read when the status is ok. -/
def uploadToChromeWebStore (ok : Bool) (body : JSVal) : Except String Unit :=
  if ok then
    match getProp body "uploadState" with
    | .error e => .error e
    | .ok v => if jsIsString v "SUCCESS" then .ok () else .error (uploadFailMsg body)
  else .error (uploadFailMsg body)

/-! ## Concrete fixtures used by the witnesses and counterexamples -/

/-- A project descriptor with a string name and a valid version. -/
def pkg0 : Pkg := { name := some (.str "pkgname"), version := "1.2.3" }

/-- A fully well-formed manifest: no errors, no warnings. -/
def manGood : Manifest :=
  { manifest_version := some (.num 3), name := some (.str "My Ext"),
    version := some (.str "1.2.3"), description := some (.str "d"),
    icons := some (.obj [("128", .str "i.png")]) }

/-- The validation outcome of `manGood` against `pkg0`. -/
def valGood : Validation :=
  { errors := [], warnings := [], manifest := manGood, needsSave := false }

/-- A clean build input around `manGood`. -/
def inpGood : BuildInput :=
  { manifest := manGood, pkg := pkg0, outDirExists := true,
    viteSucceeds := true, existingZips := [], gitignoreHasPattern := false }

/-- Manifest with `manifest_version` absent (auto-fillable) and `version`
absent (a fatal error): the validator fills and persists the manifest, then
the build aborts. -/
def manAutofillError : Manifest :=
  { manifest_version := none, name := some (.str "My Ext"),
    version := none, description := some (.str "d"),
    icons := some (.obj [("128", .str "i.png")]) }

/-- The validation outcome of `manAutofillError` against `pkg0`. -/
def valAutofillError : Validation :=
  { errors := ["Missing required version field"], warnings := [],
    manifest := { manAutofillError with manifest_version := some (.num 3) },
    needsSave := true }

/-- Build input around `manAutofillError`. -/
def inpAutofillError : BuildInput :=
  { manifest := manAutofillError, pkg := pkg0, outDirExists := true,
    viteSucceeds := true, existingZips := [], gitignoreHasPattern := false }

/-- Well-formed manifest whose version `"1.0.0"` compares equal to, but
differs textually from, the project descriptor's `"1.0"`. -/
def manTrailingZero : Manifest :=
  { manGood with version := some (.str "1.0.0") }

/-- Build input pairing `manTrailingZero` with project version `"1.0"`. -/
def inpTrailingZero : BuildInput :=
  { manifest := manTrailingZero, pkg := { pkg0 with version := "1.0" },
    outDirExists := true, viteSucceeds := true, existingZips := [],
    gitignoreHasPattern := true }

/-- A token reply shaped as `invalid_grant`. -/
def respInvalidGrant : TokenResponse :=
  { ok := false, error := some "invalid_grant",
    error_description := some "Token has been expired or revoked." }

/-- A successful token reply. -/
def respTokenOk : TokenResponse :=
  { ok := true, access_token := some "tok" }

/-- A non-`invalid_grant` failure whose `error_description` happens to be the
exact message `getAccessToken` uses for invalid grants. -/
def respCollidingMsg : TokenResponse :=
  { ok := false, error := some "server_error",
    error_description := some "Invalid refresh token" }

/-! ## Comparison algebra -/

theorem cmpParts_self (a : List Nat) : cmpParts a a = 0 := by
  induction a with
  | nil => rfl
  | cons x xs ih => simp [cmpParts, lt_irrefl, ih]

theorem cmpParts_nil_antisym (b : List Nat) : cmpParts [] b = -cmpParts b [] := by
  induction b with
  | nil => rfl
  | cons y ys ih =>
    simp only [cmpParts] at ih ⊢
    by_cases h : y > 0 <;> simp [cmpNilLeft, cmpParts, h, ih]

theorem cmpParts_antisym (a b : List Nat) : cmpParts a b = -cmpParts b a := by
  induction a generalizing b with
  | nil => exact cmpParts_nil_antisym b
  | cons x xs ih =>
    cases b with
    | nil =>
      have h := cmpParts_nil_antisym (x :: xs)
      omega
    | cons y ys =>
      rcases Nat.lt_trichotomy x y with h | h | h
      · simp [cmpParts, h, Nat.lt_asymm h]
      · subst h
        simp [cmpParts, lt_irrefl, ih ys]
      · simp [cmpParts, h, Nat.lt_asymm h]

theorem cmpParts_append_zeros (a : List Nat) (k : Nat) :
    cmpParts (a ++ List.replicate k 0) a = 0 := by
  induction a with
  | nil =>
    simp only [List.nil_append]
    induction k with
    | zero => rfl
    | succ n ih => simpa [List.replicate_succ, cmpParts] using ih
  | cons x xs ih =>
    simpa [List.cons_append, cmpParts, lt_irrefl] using ih

theorem compareVersions_self (v : String) : compareVersions v v = 0 :=
  cmpParts_self _

theorem compareVersions_antisym (a b : String) :
    compareVersions a b = -compareVersions b a :=
  cmpParts_antisym _ _

/-! ## `synchronizeVersions` case analysis -/

theorem sync_of_eq (p m : String) (h : compareVersions p m = 0) :
    synchronizeVersions p m = ⟨p, p, m, false, false⟩ := by
  have hge : compareVersions p m ≥ 0 := by omega
  have hmp : ¬ compareVersions m p < 0 := by
    have := compareVersions_antisym m p; omega
  have hpp : ¬ compareVersions p p < 0 := by
    have := compareVersions_self p; omega
  simp [synchronizeVersions, hge, hmp, hpp]

theorem sync_of_gt (p m : String) (h : compareVersions p m > 0) :
    synchronizeVersions p m = ⟨p, p, p, false, true⟩ := by
  have hge : compareVersions p m ≥ 0 := by omega
  have hmp : compareVersions m p < 0 := by
    have := compareVersions_antisym m p; omega
  have hpp : ¬ compareVersions p p < 0 := by
    have := compareVersions_self p; omega
  simp [synchronizeVersions, hge, hmp, hpp]

theorem sync_of_lt (p m : String) (h : compareVersions p m < 0) :
    synchronizeVersions p m = ⟨m, m, m, true, false⟩ := by
  have hge : ¬ compareVersions p m ≥ 0 := by omega
  have hmm : ¬ compareVersions m m < 0 := by
    have := compareVersions_self m; omega
  simp [synchronizeVersions, hge, hmm, h]

/-- Claim C1: for valid version strings `p` (project descriptor) and `m`
(manifest), `synchronizeVersions` returns a version that is, under
component-wise comparison with missing trailing components read as 0, the
maximum of the two (it is one of them and compares at least as large as
both); afterwards both persisted versions compare equal to it; and a
descriptor is rewritten exactly when its version compares strictly below
it. -/
theorem claim_C1_sync_reconciles (p m : String)
    (_hp : isValidVersion p = true) (_hm : isValidVersion m = true) :
    ((synchronizeVersions p m).highest = p ∨ (synchronizeVersions p m).highest = m) ∧
    compareVersions (synchronizeVersions p m).highest p ≥ 0 ∧
    compareVersions (synchronizeVersions p m).highest m ≥ 0 ∧
    compareVersions (synchronizeVersions p m).pkgVersion (synchronizeVersions p m).highest = 0 ∧
    compareVersions (synchronizeVersions p m).manVersion (synchronizeVersions p m).highest = 0 ∧
    ((synchronizeVersions p m).pkgWritten = true ↔
      compareVersions p (synchronizeVersions p m).highest < 0) ∧
    ((synchronizeVersions p m).manWritten = true ↔
      compareVersions m (synchronizeVersions p m).highest < 0) := by
  have hanti := compareVersions_antisym m p
  have hpp := compareVersions_self p
  have hmm := compareVersions_self m
  rcases Int.lt_trichotomy (compareVersions p m) 0 with h | h | h
  · rw [sync_of_lt p m h]
    dsimp only
    refine ⟨Or.inr rfl, by omega, by omega, by omega, by omega, ?_, ?_⟩ <;> simp <;> omega
  · rw [sync_of_eq p m h]
    dsimp only
    refine ⟨Or.inl rfl, by omega, by omega, by omega, by omega, ?_, ?_⟩ <;> simp <;> omega
  · rw [sync_of_gt p m h]
    dsimp only
    refine ⟨Or.inl rfl, by omega, by omega, by omega, by omega, ?_, ?_⟩ <;> simp <;> omega

/-- Witness for C1 at the concrete valid pair `("1.2.3", "1.2.4")`. -/
theorem claim_C1_sync_reconciles_witness :
    isValidVersion "1.2.3" = true ∧ isValidVersion "1.2.4" = true ∧
    ((synchronizeVersions "1.2.3" "1.2.4").highest = "1.2.3" ∨
      (synchronizeVersions "1.2.3" "1.2.4").highest = "1.2.4") :=
  ⟨by decide, by decide,
    (claim_C1_sync_reconciles "1.2.3" "1.2.4" (by decide) (by decide)).1⟩

/-- Claim C9: `synchronizeVersions` is idempotent — running it again on the
pair it persisted changes nothing and performs no writes — and a run on an
already-equal pair performs no writes at all. -/
theorem claim_C9_sync_idempotent (p m : String)
    (_hp : isValidVersion p = true) (_hm : isValidVersion m = true) :
    (synchronizeVersions (synchronizeVersions p m).pkgVersion
        (synchronizeVersions p m).manVersion).pkgVersion =
      (synchronizeVersions p m).pkgVersion ∧
    (synchronizeVersions (synchronizeVersions p m).pkgVersion
        (synchronizeVersions p m).manVersion).manVersion =
      (synchronizeVersions p m).manVersion ∧
    (synchronizeVersions (synchronizeVersions p m).pkgVersion
        (synchronizeVersions p m).manVersion).pkgWritten = false ∧
    (synchronizeVersions (synchronizeVersions p m).pkgVersion
        (synchronizeVersions p m).manVersion).manWritten = false ∧
    (compareVersions p m = 0 →
      (synchronizeVersions p m).pkgWritten = false ∧
      (synchronizeVersions p m).manWritten = false) := by
  rcases Int.lt_trichotomy (compareVersions p m) 0 with h | h | h
  · rw [sync_of_lt p m h]
    rw [show (SyncResult.mk m m m true false).pkgVersion = m from rfl,
        show (SyncResult.mk m m m true false).manVersion = m from rfl,
        sync_of_eq m m (compareVersions_self m)]
    exact ⟨rfl, rfl, rfl, rfl, fun he => absurd he (by omega)⟩
  · rw [sync_of_eq p m h]
    rw [show (SyncResult.mk p p m false false).pkgVersion = p from rfl,
        show (SyncResult.mk p p m false false).manVersion = m from rfl,
        sync_of_eq p m h]
    exact ⟨rfl, rfl, rfl, rfl, fun _ => ⟨rfl, rfl⟩⟩
  · rw [sync_of_gt p m h]
    rw [show (SyncResult.mk p p p false true).pkgVersion = p from rfl,
        show (SyncResult.mk p p p false true).manVersion = p from rfl,
        sync_of_eq p p (compareVersions_self p)]
    exact ⟨rfl, rfl, rfl, rfl, fun he => absurd he (by omega)⟩

/-- Witness for C9 at the concrete valid pair `("2.0", "1.9")`. -/
theorem claim_C9_sync_idempotent_witness :
    isValidVersion "2.0" = true ∧ isValidVersion "1.9" = true ∧
    (synchronizeVersions (synchronizeVersions "2.0" "1.9").pkgVersion
        (synchronizeVersions "2.0" "1.9").manVersion).pkgVersion =
      (synchronizeVersions "2.0" "1.9").pkgVersion :=
  ⟨by decide, by decide,
    (claim_C9_sync_idempotent "2.0" "1.9" (by decide) (by decide)).1⟩

/-- Claim C10: valid version strings that differ only by trailing zero
components compare equal, so `synchronizeVersions` performs no writes,
returns the project descriptor's string verbatim, and the archive filename
is built from the project descriptor's textual version form. -/
theorem claim_C10_trailing_zeros (n p m : String) (k : Nat)
    (_hp : isValidVersion p = true) (_hm : isValidVersion m = true)
    (hdiff : versionParts p = versionParts m ++ List.replicate k 0 ∨
      versionParts m = versionParts p ++ List.replicate k 0) :
    compareVersions p m = 0 ∧
    (synchronizeVersions p m).pkgWritten = false ∧
    (synchronizeVersions p m).manWritten = false ∧
    (synchronizeVersions p m).highest = p ∧
    (synchronizeVersions p m).pkgVersion = p ∧
    (synchronizeVersions p m).manVersion = m ∧
    buildZipName n (synchronizeVersions p m).highest = buildZipName n p := by
  have h0 : compareVersions p m = 0 := by
    rcases hdiff with h | h
    · unfold compareVersions
      rw [h]
      exact cmpParts_append_zeros _ _
    · have : compareVersions m p = 0 := by
        unfold compareVersions
        rw [h]
        exact cmpParts_append_zeros _ _
      have := compareVersions_antisym p m
      omega
  rw [sync_of_eq p m h0]
  exact ⟨h0, rfl, rfl, rfl, rfl, rfl, rfl⟩

/-- Witness for C10 at `("My Ext", "1.0", "1.0.0")`: the tie resolves to the
project descriptor's `"1.0"`, giving archive name `my-ext-v1-0.zip`. -/
theorem claim_C10_trailing_zeros_witness :
    versionParts "1.0.0" = versionParts "1.0" ++ List.replicate 1 0 ∧
    compareVersions "1.0" "1.0.0" = 0 ∧
    (synchronizeVersions "1.0" "1.0.0").highest = "1.0" := by
  have h := claim_C10_trailing_zeros "My Ext" "1.0" "1.0.0" 1
    (by decide) (by decide) (Or.inr (by decide))
  exact ⟨by decide, h.1, h.2.2.2.1⟩

/-- Claim C2 (amended): the publish script's expected archive name agrees
with the build's whenever the post-build manifest version string equals the
`highest` string the build used — in particular whenever the synchronizer
rewrote the manifest.  (The original claim fails when the two versions
compare equal but differ textually; see the counterexample.) -/
theorem claim_C2_archive_name_agreement (n p m : String)
    (_hp : isValidVersion p = true) (_hm : isValidVersion m = true) :
    ((synchronizeVersions p m).manWritten = true →
      publishZipName n (synchronizeVersions p m).manVersion =
        buildZipName n (synchronizeVersions p m).highest) ∧
    ((synchronizeVersions p m).manVersion = (synchronizeVersions p m).highest →
      publishZipName n (synchronizeVersions p m).manVersion =
        buildZipName n (synchronizeVersions p m).highest) := by
  have key : ∀ v, publishZipName n v = buildZipName n v := fun _ => rfl
  constructor
  · intro hw
    rcases Int.lt_trichotomy (compareVersions p m) 0 with h | h | h
    · rw [sync_of_lt p m h]
      exact key m
    · rw [sync_of_eq p m h] at hw
      exact absurd hw (by simp)
    · rw [sync_of_gt p m h]
      exact key p
  · intro hv
    rw [hv]
    exact key _

/-- Witness for C2 (amended) at `("My Ext", "1.1", "1.0")`: the manifest is
rewritten to `1.1` and both scripts derive `my-ext-v1-1.zip`. -/
theorem claim_C2_archive_name_agreement_witness :
    isValidVersion "1.1" = true ∧ isValidVersion "1.0" = true ∧
    (synchronizeVersions "1.1" "1.0").manWritten = true ∧
    publishZipName "My Ext" (synchronizeVersions "1.1" "1.0").manVersion =
      buildZipName "My Ext" (synchronizeVersions "1.1" "1.0").highest :=
  ⟨by decide, by decide, by decide,
    (claim_C2_archive_name_agreement "My Ext" "1.1" "1.0"
      (by decide) (by decide)).1 (by decide)⟩

/-- Counterexample to C2 as stated: with project version `"1.0"` and
manifest version `"1.0.0"` (equal under component-wise comparison, different
textually) the build creates `my-ext-v1-0.zip`, the manifest keeps version
`"1.0.0"`, and the publish script derives `my-ext-v1-0-0.zip` — a different
filename, so its existence check cannot find the build's archive. -/
theorem claim_C2_counterexample :
    Effect.createZip "my-ext-v1-0.zip" ∈ buildMain inpTrailingZero ∧
    (synchronizeVersions "1.0" "1.0.0").manVersion = "1.0.0" ∧
    publishZipName "My Ext" "1.0.0" = "my-ext-v1-0-0.zip" ∧
    Effect.createZip (publishZipName "My Ext" "1.0.0") ∉ buildMain inpTrailingZero ∧
    publishZipName "My Ext" "1.0.0" ≠ "my-ext-v1-0.zip" := by
  refine ⟨by decide, by decide, by decide, by decide, by decide⟩

/-- Claim C3 (amended): when validation reports errors the build aborts
before version synchronization, bundling and packaging — but if an
auto-fillable field was absent the manifest itself is persisted during the
same validation pass, so that one write does precede the abort. -/
theorem claim_C3_abort_after_autofill_save (inp : BuildInput) (val : Validation)
    (h : validateManifest inp.manifest inp.pkg = .ok val) (he : val.errors ≠ []) :
    buildMain inp =
      (if val.needsSave then [Effect.saveManifest] else []) ++ [Effect.exitFailure] := by
  unfold buildMain
  rw [h]
  have hl : val.errors.length > 0 := List.length_pos.mpr he
  simp [hl]

/-- Witness for C3 (amended) at `inpAutofillError` (missing
`manifest_version`, missing `version`). -/
theorem claim_C3_abort_after_autofill_save_witness :
    validateManifest inpAutofillError.manifest inpAutofillError.pkg = .ok valAutofillError ∧
    valAutofillError.errors ≠ [] ∧
    buildMain inpAutofillError =
      (if valAutofillError.needsSave then [Effect.saveManifest] else []) ++
        [Effect.exitFailure] :=
  ⟨rfl, by decide,
    claim_C3_abort_after_autofill_save inpAutofillError valAutofillError rfl (by decide)⟩

/-- Counterexample to C3 as stated: on a manifest with `manifest_version`
absent and `version` absent, validation reports an error, yet the manifest
file is written (the auto-filled `manifest_version: 3` is persisted) before
the abort. -/
theorem claim_C3_counterexample :
    valErrorsOf (validateManifest manAutofillError pkg0) ≠ [] ∧
    buildMain inpAutofillError = [Effect.saveManifest, Effect.exitFailure] := by
  refine ⟨by decide, by decide⟩

/-- The per-segment loop pushes at most one error: every branch either stops
with a singleton or recurses. -/
theorem checkParts_fst_length (ps : List String) (az : Bool) :
    (checkParts ps az).1.length ≤ 1 := by
  induction ps generalizing az with
  | nil => simp [checkParts]
  | cons p ps ih =>
    simp only [checkParts]
    split_ifs <;> simp [ih]

/-- Claim C4 (amended): for a present version value the validator pushes at
most one error from the per-segment rules (the first failing rule
short-circuits the rest of the loop), but the all-zero check still runs after
the loop, so the reported list is empty, a single error, or a per-segment
error followed by the all-zero error. -/
theorem claim_C4_version_error_shape (v : String) :
    (checkParts (splitDot v) true).1.length ≤ 1 ∧
    (versionFieldErrors v = [] ∨
      (∃ e, versionFieldErrors v = [e]) ∨
      (∃ e, versionFieldErrors v =
        [e, "Version cannot be all zeros (e.g., 0 or 0.0.0.0)"])) := by
  refine ⟨checkParts_fst_length _ _, ?_⟩
  by_cases hc : (splitDot v = [] ∨ 4 < (splitDot v).length)
  · exact Or.inr (Or.inl ⟨"Version must have 1 to 4 dot-separated integers",
      by simp [versionFieldErrors, hc]⟩)
  · have hlen := checkParts_fst_length (splitDot v) true
    rcases hr : (checkParts (splitDot v) true).1 with _ | ⟨e, tl⟩
    · cases hz : (checkParts (splitDot v) true).2
      · exact Or.inl (by simp [versionFieldErrors, hc, hr, hz])
      · exact Or.inr (Or.inl ⟨"Version cannot be all zeros (e.g., 0 or 0.0.0.0)",
          by simp [versionFieldErrors, hc, hr, hz]⟩)
    · rcases tl with _ | ⟨e2, tl2⟩
      · cases hz : (checkParts (splitDot v) true).2
        · exact Or.inr (Or.inl ⟨e, by simp [versionFieldErrors, hc, hr, hz]⟩)
        · exact Or.inr (Or.inr ⟨e, by simp [versionFieldErrors, hc, hr, hz]⟩)
      · rw [hr] at hlen
        simp at hlen

/-- Counterexample to C4 as stated: for version `"0.abc"` the loop stops at
the non-integer segment `"abc"`, but the `allZero` flag — updated only by the
segments scanned before the stop, here just `"0"` — is still true, so the
all-zero error is reported as well: two errors for one malformed value, not
one. -/
theorem claim_C4_counterexample :
    versionFieldErrors "0.abc" =
      ["Version parts must be integers",
       "Version cannot be all zeros (e.g., 0 or 0.0.0.0)"] ∧
    valErrorsOf (validateManifest { manGood with version := some (.str "0.abc") } pkg0) =
      ["Version parts must be integers",
       "Version cannot be all zeros (e.g., 0 or 0.0.0.0)"] := by
  refine ⟨by decide, by decide⟩

/-- Claim C5 (the code bug): `icons: null` passes the
`typeof icons !== "object" || Array.isArray(icons)` guard because
`typeof null === "object"`, and the following `icons["128"]` read throws a
`TypeError` — the validator does not return a warning list at all.  For the
claim's other shapes (an array, a string) the validator does return normally
with the single `icons must be an object` warning and no error. -/
theorem claim_C5_icons_null_throws :
    validateManifest { manGood with icons := some .null } pkg0 =
      .error "TypeError: Cannot read properties of null" ∧
    valWarningsOf (validateManifest { manGood with icons := some (.arr []) } pkg0) =
      ["icons must be an object"] ∧
    valErrorsOf (validateManifest { manGood with icons := some (.arr []) } pkg0) = [] ∧
    valWarningsOf (validateManifest { manGood with icons := some (.str "x") } pkg0) =
      ["icons must be an object"] ∧
    valErrorsOf (validateManifest { manGood with icons := some (.str "x") } pkg0) = [] := by
  refine ⟨rfl, by decide, by decide, by decide, by decide⟩

/-- Membership of a `createZip` effect in the packaging block: it happens
exactly when there are no warnings and no archive with the computed name
exists yet, and the created archive is precisely the computed one. -/
theorem createZip_mem_packaging (w : List String) (sl zip z : String)
    (ex : List String) (hp : Bool) :
    Effect.createZip z ∈ packagingEffects w sl zip ex hp ↔
      (w = [] ∧ z = zip ∧ zip ∉ ex) := by
  unfold packagingEffects
  rcases w with _ | ⟨a, as⟩
  · by_cases hz : zip ∈ ex
    · simp [hz]
    · cases hp <;> simp [hz, List.mem_append, List.mem_map]
  · simp

/-- Any effect in the packaging block implies the block is in its creating
branch, which starts with the `createZip` of the computed name. -/
theorem packaging_mem_createZip (w : List String) (sl zip : String)
    (ex : List String) (hp : Bool) (e : Effect)
    (he : e ∈ packagingEffects w sl zip ex hp) :
    Effect.createZip zip ∈ packagingEffects w sl zip ex hp := by
  unfold packagingEffects at he ⊢
  split_ifs at he ⊢ <;> simp_all

/-- An effect that is none of the fixed pipeline steps occurs in a build
trace exactly when validation passed, the bundler succeeded, and the effect
belongs to the packaging block. -/
theorem mem_buildMain_iff_packaging (inp : BuildInput) (val : Validation)
    (h : validateManifest inp.manifest inp.pkg = .ok val) (e : Effect)
    (hsave : e ≠ .saveManifest) (hexit : e ≠ .exitFailure)
    (hvite : e ≠ .runVite) (hdir : e ≠ .mkOutputDir)
    (hwp : ∀ s, e ≠ .writePkgVersion s) (hwm : ∀ s, e ≠ .writeManVersion s) :
    e ∈ buildMain inp ↔
      (val.errors = [] ∧ inp.viteSucceeds = true ∧
        e ∈ packagingEffects val.warnings (slugify (manifestNameString val.manifest))
          (buildZipNameOf inp val) inp.existingZips inp.gitignoreHasPattern) := by
  unfold buildMain
  rw [h]
  dsimp only
  split_ifs with h1 h2 <;>
    simp_all [List.mem_append, List.length_eq_zero] <;>
    (intro hc _; rw [hc] at h1; simp at h1)

/-- Claim C6: a build run creates an archive exactly when validation passed
with zero warnings, the bundler succeeded, and no archive with the computed
(slug, version) name already exists — and the created archive carries exactly
that name; in every other case packaging is skipped entirely: no archive is
created, no file is deleted, and the ignore-list is not touched. -/
theorem claim_C6_packaging_once (inp : BuildInput) (val : Validation)
    (h : validateManifest inp.manifest inp.pkg = .ok val) (z : String) :
    (Effect.createZip z ∈ buildMain inp ↔
      (val.errors = [] ∧ val.warnings = [] ∧ inp.viteSucceeds = true ∧
        z = buildZipNameOf inp val ∧ buildZipNameOf inp val ∉ inp.existingZips)) ∧
    (¬ (val.errors = [] ∧ val.warnings = [] ∧ inp.viteSucceeds = true ∧
        buildZipNameOf inp val ∉ inp.existingZips) →
      (∀ d, Effect.createZip d ∉ buildMain inp) ∧
      (∀ d, Effect.deleteZip d ∉ buildMain inp) ∧
      Effect.updateGitignore ∉ buildMain inp) := by
  constructor
  · rw [mem_buildMain_iff_packaging inp val h (.createZip z) (by simp) (by simp)
        (by simp) (by simp) (fun s => by simp) (fun s => by simp),
      createZip_mem_packaging]
    tauto
  · intro hno
    refine ⟨?_, ?_, ?_⟩
    · intro d hd
      rw [mem_buildMain_iff_packaging inp val h (.createZip d) (by simp) (by simp)
          (by simp) (by simp) (fun s => by simp) (fun s => by simp),
        createZip_mem_packaging] at hd
      exact hno ⟨hd.1, hd.2.2.1, hd.2.1, hd.2.2.2.2⟩
    · intro d hd
      rw [mem_buildMain_iff_packaging inp val h (.deleteZip d) (by simp) (by simp)
          (by simp) (by simp) (fun s => by simp) (fun s => by simp)] at hd
      have hc := packaging_mem_createZip _ _ _ _ _ _ hd.2.2
      rw [createZip_mem_packaging] at hc
      exact hno ⟨hd.1, hc.1, hd.2.1, hc.2.2⟩
    · intro hd
      rw [mem_buildMain_iff_packaging inp val h .updateGitignore (by simp) (by simp)
          (by simp) (by simp) (fun s => by simp) (fun s => by simp)] at hd
      have hc := packaging_mem_createZip _ _ _ _ _ _ hd.2.2
      rw [createZip_mem_packaging] at hc
      exact hno ⟨hd.1, hc.1, hd.2.1, hc.2.2⟩

/-- Witness for C6 at the clean input `inpGood`: the archive
`my-ext-v1-2-3.zip` is created. -/
theorem claim_C6_packaging_once_witness :
    validateManifest inpGood.manifest inpGood.pkg = .ok valGood ∧
    Effect.createZip "my-ext-v1-2-3.zip" ∈ buildMain inpGood :=
  ⟨rfl, (claim_C6_packaging_once inpGood valGood rfl "my-ext-v1-2-3.zip").1.mpr
    ⟨rfl, rfl, rfl, by decide, by decide⟩⟩

/-- Claim C7 (amended): an `invalid_grant`-shaped first failure triggers
exactly one re-authorization followed by exactly one further fetch whose
outcome — success or failure — is returned with no further re-authorization;
any other failure is propagated with no re-authorization **unless** its
derived message is exactly the string `Invalid refresh token`, because the
catch block discriminates by message text, so a non-`invalid_grant` response
whose `error_description` is that exact string also triggers the single
re-authorization. -/
theorem claim_C7_token_retry (r1 r2 : TokenResponse) (h1 : r1.ok = false) :
    (r1.error = some "invalid_grant" →
      (ensureAccessToken true r1 r2).preAuth = 0 ∧
      (ensureAccessToken true r1 r2).reAuth = 1 ∧
      (ensureAccessToken true r1 r2).fetchCount = 2 ∧
      (ensureAccessToken true r1 r2).outcome = getAccessToken r2) ∧
    (r1.error ≠ some "invalid_grant" → tokenFailMsg r1 ≠ "Invalid refresh token" →
      (ensureAccessToken true r1 r2).reAuth = 0 ∧
      (ensureAccessToken true r1 r2).fetchCount = 1 ∧
      (ensureAccessToken true r1 r2).outcome = .error (tokenFailMsg r1)) ∧
    (r1.error ≠ some "invalid_grant" → tokenFailMsg r1 = "Invalid refresh token" →
      (ensureAccessToken true r1 r2).reAuth = 1 ∧
      (ensureAccessToken true r1 r2).fetchCount = 2) := by
  by_cases hg : r1.error = some "invalid_grant"
  · simp [ensureAccessToken, getAccessToken, h1, hg]
  · by_cases hm : tokenFailMsg r1 = "Invalid refresh token" <;>
      simp [ensureAccessToken, getAccessToken, h1, hg, hm]

/-- Witness for C7: an `invalid_grant` first reply followed by a successful
second fetch yields one re-authorization, two fetches, and the token. -/
theorem claim_C7_token_retry_witness :
    respInvalidGrant.ok = false ∧ respInvalidGrant.error = some "invalid_grant" ∧
    (ensureAccessToken true respInvalidGrant respTokenOk).reAuth = 1 ∧
    (ensureAccessToken true respInvalidGrant respTokenOk).fetchCount = 2 ∧
    (ensureAccessToken true respInvalidGrant respTokenOk).outcome = .ok "tok" := by
  have h := (claim_C7_token_retry respInvalidGrant respTokenOk rfl).1 rfl
  exact ⟨rfl, rfl, h.2.1, h.2.2.1, h.2.2.2.trans rfl⟩

/-- Counterexample to C7 as stated: the reply
`{error: "server_error", error_description: "Invalid refresh token"}` is not
`invalid_grant`-shaped, yet it triggers a re-authorization and a second
fetch, because the catch block matches the thrown message string. -/
theorem claim_C7_counterexample :
    respCollidingMsg.error ≠ some "invalid_grant" ∧
    (ensureAccessToken true respCollidingMsg respTokenOk).reAuth = 1 ∧
    (ensureAccessToken true respCollidingMsg respTokenOk).fetchCount = 2 := by
  refine ⟨by decide, by decide, by decide⟩

/-- `===` comparison against a string succeeds exactly on that string
value. -/
theorem jsIsString_eq_true_iff (v : Option JSVal) (s : String) :
    jsIsString v s = true ↔ v = some (.str s) := by
  rcases v with _ | j
  · simp [jsIsString]
  · cases j <;> simp [jsIsString]

/-- Claim C8: for an object response body, the upload succeeds exactly when
the HTTP status is a success and the body's `uploadState` field is the string
`"SUCCESS"`; in every other combination the raised error message carries the
stringified raw response body. -/
theorem claim_C8_upload_gate (ok : Bool) (fs : List (String × JSVal)) :
    (uploadToChromeWebStore ok (.obj fs) = .ok () ↔
      (ok = true ∧ fs.lookup "uploadState" = some (.str "SUCCESS"))) ∧
    (ok = false ∨ jsIsString (fs.lookup "uploadState") "SUCCESS" = false →
      uploadToChromeWebStore ok (.obj fs) =
        .error ("Upload failed: " ++ stringify (.obj fs))) := by
  cases ok
  · simp [uploadToChromeWebStore, uploadFailMsg]
  · by_cases hj : jsIsString (fs.lookup "uploadState") "SUCCESS" = true
    · rw [jsIsString_eq_true_iff] at hj
      simp [uploadToChromeWebStore, getProp, uploadFailMsg, hj, jsIsString]
    · have hj' : jsIsString (fs.lookup "uploadState") "SUCCESS" = false := by
        simpa using hj
      simp [uploadToChromeWebStore, getProp, uploadFailMsg, hj']
      rw [← jsIsString_eq_true_iff (fs.lookup "uploadState") "SUCCESS"]
      simp [hj']

/-- Witness for C8: a success status with `uploadState: "FAILURE"` raises the
error carrying the stringified body, and a success status with
`uploadState: "SUCCESS"` succeeds. -/
theorem claim_C8_upload_gate_witness :
    uploadToChromeWebStore true (.obj [("uploadState", .str "FAILURE")]) =
      .error ("Upload failed: " ++ stringify (.obj [("uploadState", .str "FAILURE")])) ∧
    uploadToChromeWebStore true (.obj [("uploadState", .str "SUCCESS")]) = .ok () :=
  ⟨(claim_C8_upload_gate true [("uploadState", .str "FAILURE")]).2 (Or.inr rfl),
    (claim_C8_upload_gate true [("uploadState", .str "SUCCESS")]).1.mpr ⟨rfl, rfl⟩⟩
